import Mathlib

/-!
Verification development for the tarafis mobile app repository.

The file shallowly embeds the core logic described by the specification:

* the region-scoped hospital-lookup cache with request cancellation of
  `onSelectRegion` in `src/frontend/screens/forms/Form1Screen.js`
  (second revision in the file, lines 540-601), embedded as an explicit
  event system over a screen state, with one event for the synchronous
  part of a `selectRegion` call and one event for the settlement of an
  in-flight network fetch (arrival of the axios response together with the
  synchronous continuation of the `await`; the two are atomic with respect
  to user events because microtasks drain before the next macrotask);
* the response normalization of the same function (lines 570-583);
* the submit / save-draft logic of `submitForm` in `Form1Screen.js`
  (lines 610-726), `submitForm` in `Form2Screen.js` (lines 171-255) and
  `handleSubmit` in `Form4Screen.js` (lines 102-208);
* the multi-select toggle of `MultiSelectCheckbox` (`src/unnamed/part_001`,
  second revision, lines 75-82) and the comma-join composition of
  `tujuan_kunjungan`;
* `uploadNewImages` and `handleSave` of `src/components/CardInfo.js`.

JavaScript values relevant to these functions are modelled by the small
inductive `JsVal`; numbers are modelled as integers (the ids and counts
these functions handle are integral), with `JsNum.nan` standing for the
IEEE NaN produced by a failed `Number(...)` coercion.
-/

namespace Tarafis

/-! ## JavaScript string primitives

The JS string methods used by the embedded code (`trim`, `toLowerCase`,
and the integer part of the `Number` coercion) are modelled explicitly
over character lists, so that every definition evaluates inside the
kernel.  `trim` strips ASCII whitespace, `toLowerCase` lowers ASCII
letters; the non-ASCII corners of the JS semantics do not occur in the
data these screens handle. -/

/-- ASCII lower-casing of one character. -/
def lowerAscii (c : Char) : Char :=
  if 65 ≤ c.toNat && c.toNat ≤ 90 then Char.ofNat (c.toNat + 32) else c

/-- ASCII whitespace. -/
def isWsChar (c : Char) : Bool :=
  c == ' ' || c == '\t' || c == '\n' || c == '\r'

/-- Strip leading and trailing whitespace from a character list. -/
def trimChars (cs : List Char) : List Char :=
  ((cs.dropWhile isWsChar).reverse.dropWhile isWsChar).reverse

/-- JS `s.trim()`. -/
def jsTrim (s : String) : String := ⟨trimChars s.data⟩

/-- JS `s.toLowerCase()`. -/
def jsToLower (s : String) : String := ⟨s.data.map lowerAscii⟩

/-- Decimal digit value of a character, if it is a digit. -/
def digitVal (c : Char) : Option Nat :=
  if 48 ≤ c.toNat && c.toNat ≤ 57 then some (c.toNat - 48) else none

/-- Accumulate a digit run; `none` acc means no digit seen yet. -/
def digitsVal : List Char → Option Nat → Option Nat
  | [], acc => acc
  | c :: cs, acc =>
    match digitVal c, acc with
    | some d, some n => digitsVal cs (some (n * 10 + d))
    | some d, none => digitsVal cs (some d)
    | none, _ => none

/-- Parse an optionally-signed run of decimal digits, the integer
fragment of the JS `Number` coercion of a string. -/
def parseIntChars : List Char → Option Int
  | '-' :: cs => (digitsVal cs none).map (fun n => -(n : Int))
  | cs => (digitsVal cs none).map (fun n => (n : Int))

/-! ## JavaScript value model -/

/-- Result of the JS `Number(...)` coercion: either NaN or an integer
(the numeric fields these functions handle are integral ids and
coordinates; non-integral numeric strings are out of scope and modelled
as NaN). -/
inductive JsNum where
  | nan
  | int (n : Int)
deriving DecidableEq, Repr

/-- A raw field of a record arriving from the network: absent
(`undefined`), `null`, a number or a string. -/
inductive RawField where
  | undef
  | null
  | num (n : Int)
  | str (s : String)
deriving DecidableEq, Repr

/-- The JS `Number(x)` coercion on a raw field: `Number(undefined)` is NaN,
`Number(null)` is `0`, a numeric string (after trimming) parses, the empty
or blank string is `0`, and any other string is NaN. -/
def jsNumber : RawField → JsNum
  | .undef => .nan
  | .null => .int 0
  | .num n => .int n
  | .str s =>
    if jsTrim s = "" then .int 0
    else
      match parseIntChars (jsTrim s).data with
      | some n => .int n
      | none => .nan

/-- A general JS value as it occurs in the form screens state: `undefined`,
`null`, a string, an integer, an array (only its length is relevant to the
embedded code), a plain object with optional `label` and `value`
properties (dropdown items), or a picked-image asset object with a `uri`
and optional `fileName` and `type` properties. -/
inductive JsVal where
  | undef
  | null
  | str (s : String)
  | num (n : Int)
  | arr (len : Nat)
  | obj (label val : Option String)
  | fileObj (uri : String) (fileName ftype : Option String)
deriving DecidableEq, Repr

/-- JS truthiness test (negated): `!x` for the values of `JsVal`.
Arrays and objects are always truthy. -/
def jsFalsy : JsVal → Bool
  | .undef => true
  | .null => true
  | .str s => s == ""
  | .num n => n == 0
  | .arr _ => false
  | .obj _ _ => false
  | .fileObj _ _ _ => false

/-- The check `v === null, undefined, the empty string, or 0` used
by the required-field filters of the form screens. On the constructors of
`JsVal` it agrees with falsiness, but it is kept separate because the
source spells it with strict equalities. -/
def isMissingVal (v : JsVal) : Bool :=
  v == .null || v == .undef || v == .str "" || v == .num 0

/-- The normalization `x?.value ?? x ?? the empty string` applied to dropdown state
(`namaSales`, `region`, `kuantitas`): an object with a `value` property
yields that string, a nullish value yields the empty string, and any other
value passes through. -/
def jsValueCoalesce : JsVal → JsVal
  | .obj _ (some v) => .str v
  | .obj l none => .obj l none
  | .null => .str ""
  | .undef => .str ""
  | v => v

/-- The normalization `x?.label ?? the empty string` applied to the location state
(`lokasi`): only an object with a `label` property yields a non-empty
result. -/
def jsLabelCoalesce : JsVal → JsVal
  | .obj (some l) _ => .str l
  | _ => .str ""

/-- The normalization `x ?? empty`: nullish values become the empty string. -/
def jsNullish : JsVal → JsVal
  | .null => .str ""
  | .undef => .str ""
  | v => v

/-! ## Hospital records and normalization (Form1Screen.js lines 570-583) -/

/-- A raw hospital record of the `retrieved_hospitals` payload.  String
fields that may be absent are `Option String` (`none` models
`undefined`). -/
structure RawHospital where
  hospital_id : RawField
  region : Option String
  name : Option String
  street : Option String
  latitude : RawField
  longitude : RawField
deriving DecidableEq, Repr

/-- A normalized hospital object as produced by `onSelectRegion`. -/
structure Hospital where
  hospital_id : JsNum
  region : String
  name : String
  street : String
  latitude : Option JsNum
  longitude : Option JsNum
deriving DecidableEq, Repr

/-- The coordinate normalization
`h.x != null && h.x !== empty ? Number(h.x) : null`: nullish values and the
empty string become `null`, everything else is coerced with `Number`. -/
def coordCoerce : RawField → Option JsNum
  | .null => none
  | .undef => none
  | .str s => if s = "" then none else some (jsNumber (.str s))
  | .num n => some (jsNumber (.num n))

/-- Normalization of one raw record (the body of the `hospitalsRaw.map`
callback): `Number(h.hospital_id)`, string fields defaulted with
`|| empty-default`, coordinates via `coordCoerce`. -/
def normalizeHospital (h : RawHospital) : Hospital where
  hospital_id := jsNumber h.hospital_id
  region := h.region.getD ""
  name := h.name.getD ""
  street := h.street.getD ""
  latitude := coordCoerce h.latitude
  longitude := coordCoerce h.longitude

/-- `hospitalsRaw.map(h => ({...}))` — a plain map, with no filtering. -/
def normalizeHospitals (raw : List RawHospital) : List Hospital :=
  raw.map normalizeHospital

/-- The number of records of a raw payload whose id coerces to a usable
number (not NaN); used to state the normalization claims. -/
def coercibleCount (raw : List RawHospital) : Nat :=
  (raw.filter (fun h => jsNumber h.hospital_id != JsNum.nan)).length

/-! ## The region-lookup cache event system (Form1Screen.js lines 540-601) -/

/-- An in-flight network fetch: its controller identity and the region it
was issued for (the `selectReg` captured by the closure). -/
structure FetchReq where
  id : Nat
  region : String
deriving DecidableEq, Repr

/-- Outcome of a network fetch chosen by the environment: a payload or a
network / parse failure with the message the catch-handler would show. -/
inductive FetchOutcome where
  | ok (raw : List RawHospital)
  | err (msg : String)
deriving DecidableEq, Repr

/-- The screen state touched by `onSelectRegion`: the selected region, the
visible hospital list, the per-region cache (`cacheRef`, association list
in insertion order, JS `Map` semantics), the current abort controller
(`controllerRef`, identified by the fetch id it belongs to), the loading
flag, the error message, the set of aborted fetch ids, the in-flight
fetches, and a counter handing out fetch ids (hence also counting how many
network fetches were ever issued). -/
structure ScreenState where
  region : String
  hospitals : List Hospital
  cache : List (String × List Hospital)
  ctrl : Option Nat
  loading : Bool
  error : Option String
  aborted : List Nat
  pending : List FetchReq
  nextId : Nat
deriving DecidableEq, Repr

/-- `cacheRef.current.get(k)` combined with `has(k)`: first entry with the
key, `none` when absent. -/
def cacheLookup : List (String × List Hospital) → String →
    Option (List Hospital)
  | [], _ => none
  | e :: tl, k => if e.1 == k then some e.2 else cacheLookup tl k

/-- `cacheRef.current.set(k, v)` — JS `Map.set`: overwrite in place when
the key is present, append otherwise. -/
def cacheSet : List (String × List Hospital) → String → List Hospital →
    List (String × List Hospital)
  | [], k, v => [(k, v)]
  | e :: tl, k, v =>
    if e.1 == k then (k, v) :: tl else e :: cacheSet tl k v

/-- The state with no region selected, as when the screen mounts. -/
def initState : ScreenState where
  region := ""
  hospitals := []
  cache := []
  ctrl := none
  loading := false
  error := none
  aborted := []
  pending := []
  nextId := 0

/-- The synchronous prefix of `onSelectRegion(selectReg)` up to the
`await`: set the region and clear the error; on a cache hit show the
cached list and return; on a miss abort the current controller (if any),
install a fresh controller, set the loading flag and issue the fetch. -/
def selectRegion (r : String) (s : ScreenState) : ScreenState :=
  let s := { s with region := r, error := none }
  match cacheLookup s.cache r with
  | some hs => { s with hospitals := hs }
  | none =>
    let ab := match s.ctrl with
      | some i => i :: s.aborted
      | none => s.aborted
    { s with
        aborted := ab
        ctrl := some s.nextId
        loading := true
        pending := s.pending ++ [⟨s.nextId, r⟩]
        nextId := s.nextId + 1 }

/-- The in-flight request with controller id `i`, if still pending. -/
def findReq (i : Nat) (p : List FetchReq) : Option FetchReq :=
  p.find? (fun q => q.id == i)

/-- Settlement of the fetch with id `i` and the synchronous continuation
of the `await`: an aborted fetch rejects with a cancellation error which
the catch-handler swallows (only the `finally` block runs: loading off and
`controllerRef.current = null`, unconditionally — even when the ref
meanwhile holds a newer controller); a successful fetch normalizes the
payload, stores it in the cache under the region of the request and shows
it; a failed fetch records the error message and clears the visible
list. -/
def resolveFetch (i : Nat) (out : FetchOutcome) (s : ScreenState) :
    ScreenState :=
  match findReq i s.pending with
  | none => s
  | some req =>
    let s1 := { s with pending := s.pending.filter (fun q => !(q.id == i)) }
    if s1.aborted.contains i then
      { s1 with loading := false, ctrl := none }
    else
      match out with
      | .ok raw =>
        let normalized := normalizeHospitals raw
        { s1 with
            cache := cacheSet s1.cache req.region normalized
            hospitals := normalized
            loading := false
            ctrl := none }
      | .err msg =>
        { s1 with
            error := some msg
            hospitals := []
            loading := false
            ctrl := none }

/-- An event of the single-threaded event loop: a user region selection or
the settlement of an in-flight fetch. -/
inductive Event where
  | select (r : String)
  | settle (i : Nat) (out : FetchOutcome)
deriving DecidableEq, Repr

/-- One event step. -/
def stepEvent : Event → ScreenState → ScreenState
  | .select r, s => selectRegion r s
  | .settle i out, s => resolveFetch i out s

/-- Run a sequence of events. -/
def runEvents (es : List Event) (s : ScreenState) : ScreenState :=
  es.foldl (fun s e => stepEvent e s) s

/-! ## Multi-select checkbox (src/unnamed/part_001, lines 75-82) -/

/-- `handleToggle(option)` of `MultiSelectCheckbox`: an already-selected
option is removed (keeping the relative order of the rest), a new option
is appended at the end — so `selected` holds the checked options in the
order in which the user checked them. -/
def handleToggle (option : String) (selected : List String) : List String :=
  if selected.contains option then
    selected.filter (fun item => !(item == option))
  else
    selected ++ [option]

/-- An element of the `allSelected` array of `submitForm`: the entries of
`selected` are plain option strings, the optional trailing entry for the
free-form other-text is a `{label, value}` object. -/
inductive SelItem where
  | str (s : String)
  | objLV (label value : String)
deriving DecidableEq, Repr

/-- The mapping `typeof item === string ? item : item?.value ?? empty`. -/
def selItemValue : SelItem → String
  | .str s => s
  | .objLV _ v => v

/-- The `tujuan_kunjungan` composition of `submitForm`
(Form1Screen.js lines 683-694): copy `selected`, push a
`{label: other.trim(), value: other.trim().toLowerCase()}` entry when the
other-text is non-blank after trimming, map every entry to its machine
value and join with commas. -/
def tujuanKunjunganString (selected : List String) (other : String) : String :=
  let allSelected : List SelItem :=
    selected.map SelItem.str ++
      (if jsTrim other == "" then [] else
        [SelItem.objLV (jsTrim other) (jsToLower (jsTrim other))])
  String.intercalate "," (allSelected.map selItemValue)

/-- Modelled from the spec (for comparison only, not from the source):
the join the specification describes, with the checked options taken in
their declared list order (the order of the `options` array) instead of
the order the user checked them in. -/
def specDeclaredOrderJoin (options checked : List String) (other : String) :
    String :=
  String.intercalate ","
    ((options.filter (fun o => checked.contains o)) ++
      (if jsTrim other == "" then [] else [jsToLower (jsTrim other)]))

/-! ## Form submission payloads -/

/-- A value appended to the multipart `FormData`. -/
abbrev Payload := List (String × JsVal)

/-- `AsyncStorage.getItem(user_id)` result as appended to the form data
(`null` when the key is absent). -/
def uidVal : Option String → JsVal
  | some u => .str u
  | none => .null

/-- Lookup of a payload field by name (first occurrence). -/
def payloadLookup (k : String) : Payload → Option JsVal
  | [] => none
  | e :: tl => if e.1 == k then some e.2 else payloadLookup k tl

/-- The conditional image append
`if (x?.uri) formData.append(name, an object of uri, fileName defaulted
to photo.jpg and type defaulted to image/jpeg)`. -/
def imageAppend (name : String) (v : JsVal) : Payload :=
  match v with
  | .fileObj uri fn ft =>
    if uri == "" then []
    else [(name, .fileObj uri (some (fn.getD "photo.jpg"))
            (some (ft.getD "image/jpeg")))]
  | _ => []

/-- The aggregated validation alert
`Please complete required fields:\n` followed by one bulleted line per
missing label. -/
def requiredFieldsMessage (labels : List String) : String :=
  "Please complete required fields:\n" ++
    String.intercalate "\n" (labels.map (fun l => "• " ++ l))

/-! ## Form1Screen.js submitForm (lines 610-726) -/

/-- The screen state read by `submitForm` of `Form1Screen.js`. `users` is
the list of `{nama, jabatan}` rows. -/
structure Form1State where
  namaSales : JsVal
  region : JsVal
  lokasi : JsVal
  alamat : JsVal
  coords : JsVal
  selected : List String
  other : String
  note : JsVal
  dokumentasi : JsVal
  users : List (String × String)
  status : JsVal
deriving DecidableEq, Repr

/-- Minimal JSON rendering of the `users` rows
(`JSON.stringify(users ?? [])`); the row values of interest contain no
characters needing JSON escaping. -/
def usersJson (us : List (String × String)) : String :=
  "[" ++
    String.intercalate ","
      (us.map (fun u =>
        "\x7b\"nama\":\"" ++ u.1 ++ "\",\"jabatan\":\"" ++ u.2 ++
          "\"\x7d")) ++
    "]"

/-- The `requiredFields` array of the strict submit validation
(Form1Screen.js lines 641-653), built from the already-normalized
`...ToSend` values; each entry pairs the checked value with the label
shown in the alert (the `status` entry has a lone-blank literal label and the
`users` entry checks `users?.length`). -/
def form1RequiredFields (s : Form1State) : List (JsVal × String) :=
  [ (jsValueCoalesce s.namaSales, "Nama Sales"),
    (jsValueCoalesce s.region, "Region"),
    (jsLabelCoalesce s.lokasi, "Lokasi"),
    (jsNullish s.alamat, "Alamat"),
    (jsNullish s.coords, "Koordinat"),
    (.arr s.selected.length, "Tujuan Kunjungan"),
    (s.note, "Note Kunjungan"),
    (s.dokumentasi, "Dokumentasi Kunjungan"),
    (.num s.users.length, "Nama dan Jabatan User "),
    (s.status, " ") ]

/-- The multipart payload `submitForm` of `Form1Screen.js` hands to
`axios.post` (lines 675-708): note that no `status` field is part of it —
the `status` append of line 714 happens only after the response
arrives. -/
def form1Payload (uid : Option String) (s : Form1State) : Payload :=
  [ ("user_id", uidVal uid),
    ("nama_sales", jsValueCoalesce s.namaSales),
    ("region", jsValueCoalesce s.region),
    ("nama_lokasi", jsLabelCoalesce s.lokasi),
    ("alamat_lokasi", jsNullish s.alamat),
    ("koordinat_lokasi", jsNullish s.coords),
    ("tujuan_kunjungan", .str (tujuanKunjunganString s.selected s.other)),
    ("note_kunjungan", jsNullish s.note),
    ("users", .str (usersJson s.users)),
    ("status_kunjungan", s.status) ] ++
  imageAppend "dokumentasi_kunjungan" s.dokumentasi

/-- Result of a `submitForm` call of `Form1Screen.js`: the draft
validation alert, the aggregated submit validation alert, or the payload
handed to the submit collaborator (`axios.post`). -/
inductive Form1Outcome where
  | draftValidationError (msg : String)
  | submitValidationError (msg : String)
  | posted (payload : Payload)
deriving DecidableEq, Repr

/-- `submitForm({isDraft})` of `Form1Screen.js` (lines 610-726): drafts
are gated only by the anchor check `isDraft && !nameToSend`; final submits
filter the `requiredFields` with the strict missing test and alert the
bulleted list of every missing label; otherwise the payload is built and
posted. -/
def form1Submit (isDraft : Bool) (uid : Option String) (s : Form1State) :
    Form1Outcome :=
  let nameToSend := jsValueCoalesce s.namaSales
  if isDraft && jsFalsy nameToSend then
    .draftValidationError "Nama Sales is required to save a draft"
  else
    let missing := (form1RequiredFields s).filter (fun f => isMissingVal f.1)
    if !isDraft && !missing.isEmpty then
      .submitValidationError (requiredFieldsMessage (missing.map (fun f => f.2)))
    else
      .posted (form1Payload uid s)

/-! ## Form2Screen.js submitForm (lines 171-255) -/

/-- The screen state read by `submitForm` of `Form2Screen.js`. -/
structure Form2State where
  namaSales : JsVal
  region : JsVal
  lokasi : JsVal
  alamat : JsVal
  coords : JsVal
  tujuan : JsVal
  note : JsVal
  dokumentasi : JsVal
deriving DecidableEq, Repr

/-- Result of a `submitForm` call of `Form2Screen.js`: the draft
validation alert; a thrown error swallowed by the outer catch which shows
the generic failure alert and rethrows; or the payload handed to
`axios.post`. -/
inductive Form2Outcome where
  | draftValidationError (msg : String)
  | failedWithError (alertMsg cause : String)
  | posted (payload : Payload)
deriving DecidableEq, Repr

/-- The payload built by the draft path of `submitForm` of
`Form2Screen.js` (lines 224-242): here the `status` field IS appended
before the `axios.post` of line 245. -/
def form2Payload (isDraft : Bool) (uid : Option String) (s : Form2State) :
    Payload :=
  [ ("user_id", uidVal uid),
    ("nama_sales", jsValueCoalesce s.namaSales),
    ("region", jsValueCoalesce s.region),
    ("nama_lokasi", jsLabelCoalesce s.lokasi),
    ("alamat_lokasi", s.alamat),
    ("koordinat_lokasi", s.coords),
    ("tujuan_kunjungan", s.tujuan),
    ("note_kunjungan", s.note) ] ++
  imageAppend "dokumentasi_kunjungan" s.dokumentasi ++
  [ ("status", .str (if isDraft then "draft" else "submitted")) ]

/-- `submitForm({isDraft})` of `Form2Screen.js` (lines 171-255).  The
strict-validation branch of lines 191-215 reads `nameToSend`,
`regionToSend`, `lokasiToSend`, `alamatToSend`, `coordsToSend` and
`selected`; the first three are `const`s declared only later (lines
220-222, temporal dead zone) and the remaining three are not declared
anywhere in the component, so the branch throws a `ReferenceError` as soon
as the `requiredFields` array literal is evaluated; the outer catch shows
the generic failure alert and rethrows.  The draft path never reaches the
broken branch and posts the payload (with `status` appended before the
post). -/
def form2Submit (isDraft : Bool) (uid : Option String) (s : Form2State) :
    Form2Outcome :=
  if isDraft && jsFalsy s.namaSales then
    .draftValidationError "Nama Sales is required to save a draft"
  else if !isDraft then
    .failedWithError "Failed to submit form. Please try again."
      "ReferenceError: cannot access nameToSend before initialization"
  else
    .posted (form2Payload isDraft uid s)

/-! ## Form4Screen.js handleSubmit (lines 102-208) -/

/-- The screen state read by `handleSubmit` of `Form4Screen.js`. -/
structure Form4State where
  productType : JsVal
  lokasi : JsVal
  serialNum : JsVal
  prodName : JsVal
  merkProd : JsVal
  kuantitas : JsVal
  namaCust : JsVal
  kontakCust : JsVal
  estimasi : JsVal
  fotoAlat : JsVal
  tgl : JsVal
  masalah : JsVal
  koreksi : JsVal
  fotoKoreksi : JsVal
  capa : JsVal
  fotoCapa : JsVal
  deskMas : JsVal
deriving DecidableEq, Repr

/-- One entry of the `requiredFields` array of `handleSubmit`
(Form4Screen.js lines 130-146): form-data key, checked value, alert
label. -/
structure F4Field where
  key : String
  value : JsVal
  label : String
deriving DecidableEq, Repr

/-- The `requiredFields` array of `handleSubmit` (lines 130-146), built
after the `kuantitasToSend` / `lokasiToSend` normalization of lines
127-128. -/
def form4RequiredFields (uid : Option String) (s : Form4State) :
    List F4Field :=
  [ ⟨"user_id", uidVal uid, "User ID"⟩,
    ⟨"nama_customer", s.namaCust, "Nama Customer"⟩,
    ⟨"nama_faskes", jsLabelCoalesce s.lokasi, "Nama Lokasi"⟩,
    ⟨"tanggal_pengambilan", s.tgl, "Tanggal Pengambilan"⟩,
    ⟨"nama_produk", s.prodName, "Nama Produk"⟩,
    ⟨"tipe_produk", s.productType, "Tipe Produk"⟩,
    ⟨"serial_number", s.serialNum, "Serial Number"⟩,
    ⟨"kuantitas_unit", jsValueCoalesce s.kuantitas, "Kuantitas Unit"⟩,
    ⟨"kontak_customer", s.kontakCust, "Kontak Customer"⟩,
    ⟨"merk_produk", s.merkProd, "Merk Produk"⟩,
    ⟨"deskripsi_masalah", s.deskMas, "Deskripsi Masalah"⟩,
    ⟨"estimasi_penyelesaian", s.estimasi, "Estimasi Penyelesaian"⟩,
    ⟨"penyebab_masalah", s.masalah, "Penyebab Masalah"⟩,
    ⟨"koreksi", s.koreksi, "Koreksi"⟩,
    ⟨"tindakan_koreksi_capa", s.capa, "Tindakan Koreksi CAPA"⟩ ]

/-- The payload of `handleSubmit` (lines 171-194): every required field
appended with `f.value ?? empty`, then the three conditional image
appends. -/
def form4Payload (uid : Option String) (s : Form4State) : Payload :=
  (form4RequiredFields uid s).map (fun f => (f.key, jsNullish f.value)) ++
  imageAppend "tindakan_koreksi_img" s.fotoCapa ++
  imageAppend "foto_alat_sebelum_service" s.fotoAlat ++
  imageAppend "bukti_koreksi" s.fotoKoreksi

/-- Terminal result of a `handleSubmit` call of `Form4Screen.js`. -/
inductive Form4Outcome where
  | validationStop
  | posted (payload : Payload)
deriving DecidableEq, Repr

/-- `handleSubmit({isDraft})` of `Form4Screen.js` (lines 102-208),
returning the list of validation alerts shown (in order) together with
the terminal result.  The draft kuantitas check of lines 148-152 is
`if (isDraft && kuantitas === empty || kuantitas === null)` — which by
operator precedence is `(isDraft && kuantitas === empty) || kuantitas ===
null` — and its body only alerts, without returning, so execution falls
through to the payload build and the post. -/
def form4Submit (isDraft : Bool) (uid : Option String) (s : Form4State) :
    List String × Form4Outcome :=
  let required := form4RequiredFields uid s
  let alerts :=
    if (isDraft && s.kuantitas == .str "") || s.kuantitas == .null then
      ["Mohon isi kuantitas unit."]
    else []
  if !isDraft then
    let missing := required.filter (fun f => isMissingVal f.value)
    if !missing.isEmpty then
      (alerts ++ [requiredFieldsMessage (missing.map (fun f => f.label))],
        .validationStop)
    else
      (alerts, .posted (form4Payload uid s))
  else
    (alerts, .posted (form4Payload uid s))

/-! ## CardInfo.js uploadNewImages and handleSave (lines 113-146, 251-269) -/

/-- A field value of the edited record of `CardInfo`: a plain string (text
or a persisted server filename), `null`, or a freshly picked image object
carrying `__new: true` with its local `uri` and optional `fileName` /
`type`. -/
inductive CardVal where
  | str (s : String)
  | null
  | newImage (uri : String) (fileName ftype : Option String)
deriving DecidableEq, Repr

/-- The edited record, an insertion-ordered JS object. -/
abbrev CardObj := List (String × CardVal)

/-- Whether a list of characters starts with a pattern. -/
def charsStartWith : List Char → List Char → Bool
  | [], _ => true
  | _ :: _, [] => false
  | p :: ps, c :: cs => p == c && charsStartWith ps cs

/-- Whether a list of characters contains a pattern as a contiguous run. -/
def charsContain (pat : List Char) : List Char → Bool
  | [] => charsStartWith pat []
  | c :: cs => charsStartWith pat (c :: cs) || charsContain pat cs

/-- `isImageKey(k)`: the test `/foto|dokumentasi|selfie|bukti/i.test(k)`
of CardInfo.js line 58. -/
def isImageKey (k : String) : Bool :=
  ["foto", "dokumentasi", "selfie", "bukti"].any
    (fun p => charsContain p.data (jsToLower k).data)

/-- The pending test of line 117:
`isImageKey(k) && updated[k] && typeof updated[k] === object &&
updated[k].__new` — only fresh image objects pass. -/
def isPendingImage (k : String) (v : CardVal) : Bool :=
  isImageKey k &&
    (match v with
     | .newImage _ _ _ => true
     | _ => false)

/-- `imageKeys` of `uploadNewImages` (lines 116-118): the keys of the
record holding a pending image, in record order. -/
def pendingImageKeys (obj : CardObj) : List String :=
  (obj.filter (fun e => isPendingImage e.1 e.2)).map (fun e => e.1)

/-- First key of the record whose upload rejects, with the rejection
message — the rejection `Promise.all` propagates (lines 121-139).  The
external upload collaborator (one `POST /uploads` per pending key) is
abstracted as a function from the field key to its outcome. -/
def firstUploadError (upload : String → Except String String)
    (obj : CardObj) : Option String :=
  (pendingImageKeys obj).findSome?
    (fun k => match upload k with
      | .error e => some e
      | .ok _ => none)

/-- `uploadNewImages(obj)` (lines 113-146): return the record unchanged
when no pending image exists; otherwise upload every pending key and, when
all succeed, replace each pending value in place by the server filename;
when any upload rejects, the whole call rejects. -/
def uploadNewImages (upload : String → Except String String)
    (obj : CardObj) : Except String CardObj :=
  if (pendingImageKeys obj).isEmpty then .ok obj
  else
    match firstUploadError upload obj with
    | some e => .error e
    | none =>
      .ok (obj.map (fun e =>
        if isPendingImage e.1 e.2 then
          match upload e.1 with
          | .ok fn => (e.1, .str fn)
          | .error _ => e
        else e))

/-- Terminal result of `handleSave` (lines 251-269): missing record, the
technician-name validation alert, the save-failed alert of the catch
block, or the call of the external submit collaborator `safeOnSave` with
the uploaded record. -/
inductive SaveOutcome where
  | noData
  | validationAlert
  | saveFailed (msg : String)
  | saved (obj : CardObj)
deriving DecidableEq, Repr

/-- Record field lookup (first occurrence), `undefined` when absent. -/
def cardLookup (k : String) : CardObj → Option CardVal
  | [] => none
  | e :: tl => if e.1 == k then some e.2 else cardLookup k tl

/-- The validation guard of lines 254-259:
`local.form_type === the technician_activity literal &&
(!local.nama_teknisi || !local.nama_teknisi.trim())`. -/
def techValidationFails (obj : CardObj) : Bool :=
  (match cardLookup "form_type" obj with
   | some (.str s) => s == "technician_activity"
   | _ => false) &&
  (match cardLookup "nama_teknisi" obj with
   | some (.str s) => jsTrim s == ""
   | some .null => true
   | none => true
   | some (.newImage _ _ _) => false)

/-- `handleSave` (lines 251-269): no record is a silent return; the
technician validation alert stops the save; otherwise the pending images
are uploaded and, only when every upload succeeded, `safeOnSave` — the
external submit collaborator — is invoked with the updated record; an
upload failure is caught and shown as the save-failed alert. -/
def handleSave (upload : String → Except String String)
    (localObj : Option CardObj) : SaveOutcome :=
  match localObj with
  | none => .noData
  | some obj =>
    if techValidationFails obj then .validationAlert
    else
      match uploadNewImages upload obj with
      | .error e => .saveFailed e
      | .ok updated => .saved updated

/-- Whether a `handleSave` outcome reached the external submit
collaborator. -/
def submitInvoked : SaveOutcome → Bool
  | .saved _ => true
  | _ => false

/-! ## Concrete fixtures used by the counterexamples and witnesses -/

/-- A one-record payload for region `"A"`. -/
def rawHospA : List RawHospital :=
  [⟨.num 1, some "A", some "rs alpha", some "jl 1", .null, .null⟩]

/-- A one-record payload for region `"B"`. -/
def rawHospB : List RawHospital :=
  [⟨.num 2, some "B", some "rs beta", some "jl 2", .null, .null⟩]

/-- A second, different one-record payload for region `"B"`. -/
def rawHospB2 : List RawHospital :=
  [⟨.num 3, some "B", some "rs gamma", some "jl 3", .null, .null⟩]

/-- A payload whose only record has a non-coercible id
(`Number("abc")` is NaN). -/
def rawBadId : List RawHospital :=
  [⟨.str "abc", some "X", some "rs delta", some "", .null, .null⟩]

/-- A `Form1State` with the hospital, address and coordinates missing and
every other required field present. -/
def form1Ex : Form1State where
  namaSales := .str "Budi"
  region := .str "Jawa Barat"
  lokasi := .obj none none
  alamat := .null
  coords := .str ""
  selected := ["Trial"]
  other := ""
  note := .str "ok"
  dokumentasi := .fileObj "file://doc.jpg" none none
  users := [("Ani", "Dokter")]
  status := .str "selesai"

/-- A `Form1State` with everything filled in (used for the payload
claims). -/
def form1Full : Form1State where
  namaSales := .str "Budi"
  region := .str "Jawa Barat"
  lokasi := .obj (some "RS Alpha") none
  alamat := .str "Jl 1"
  coords := .str "-6.2, 106.8"
  selected := ["Trial"]
  other := ""
  note := .str "ok"
  dokumentasi := .fileObj "file://doc.jpg" none none
  users := [("Ani", "Dokter")]
  status := .str "selesai"

/-- A `Form2State` with everything filled in. -/
def form2Full : Form2State where
  namaSales := .str "Budi"
  region := .str "Jawa Barat"
  lokasi := .obj (some "Toko Beta") none
  alamat := .str "Jl 2"
  coords := .str "-6.2, 106.8"
  tujuan := .str "follow up"
  note := .str "ok"
  dokumentasi := .str ""

/-- A `Form4State` whose kuantitas dropdown was never touched (still
`null`) and whose other fields are filled in. -/
def form4Ex : Form4State where
  productType := .str "analyzer"
  lokasi := .str "RS Alpha"
  serialNum := .str "SN-1"
  prodName := .str "X100"
  merkProd := .str "Acme"
  kuantitas := .null
  namaCust := .str "Ani"
  kontakCust := .str "0811"
  estimasi := .str "2 hari"
  fotoAlat := .str ""
  tgl := .str "2025-01-01"
  masalah := .str "aus"
  koreksi := .str "ganti part"
  fotoKoreksi := .str ""
  capa := .str "training"
  fotoCapa := .str ""
  deskMas := .str "tidak menyala"

/-- A CardInfo record with two pending image attachments. -/
def cardObjEx : CardObj :=
  [ ("form_type", .str "sales_visit"),
    ("nama_sales", .str "Budi"),
    ("dokumentasi_kunjungan", .newImage "file://a.jpg" none none),
    ("foto_alat", .newImage "file://b.jpg" none none) ]

/-- An upload collaborator whose second call (for `foto_alat`) rejects. -/
def uploadEx : String → Except String String :=
  fun k => if k == "dokumentasi_kunjungan" then .ok "srv_a.jpg"
    else .error "Upload failed: foto_alat"

/-- The screen state with one in-flight fetch (id 0) for region `"A"`. -/
def inFlightA : ScreenState := runEvents [.select "A"] initState

/-- The screen state after a completed successful fetch for region
`"B"`. -/
def cachedB : ScreenState :=
  runEvents [.select "B", .settle 0 (.ok rawHospB)] initState

/-! ## Helper lemmas -/

theorem selectRegion_cache (r : String) (s : ScreenState) :
    (selectRegion r s).cache = s.cache := by
  cases h : cacheLookup s.cache r <;> simp [selectRegion, h]

theorem selectRegion_hit (r : String) (s : ScreenState) (v : List Hospital)
    (h : cacheLookup s.cache r = some v) :
    selectRegion r s =
      { s with region := r, error := none, hospitals := v } := by
  unfold selectRegion
  simp [h]

theorem selectRegion_miss (r : String) (s : ScreenState)
    (h : cacheLookup s.cache r = none) :
    selectRegion r s =
      { s with
          region := r
          error := none
          aborted := match s.ctrl with
            | some i => i :: s.aborted
            | none => s.aborted
          ctrl := some s.nextId
          loading := true
          pending := s.pending ++ [⟨s.nextId, r⟩]
          nextId := s.nextId + 1 } := by
  unfold selectRegion
  simp [h]

theorem resolveFetch_aborted (i : Nat) (out : FetchOutcome)
    (s : ScreenState) (h : s.aborted.contains i = true) :
    (resolveFetch i out s).hospitals = s.hospitals ∧
    (resolveFetch i out s).cache = s.cache ∧
    (resolveFetch i out s).error = s.error := by
  have h' : i ∈ s.aborted := by simpa using h
  unfold resolveFetch
  cases hf : findReq i s.pending with
  | none => exact ⟨rfl, rfl, rfl⟩
  | some req => simp [h']

theorem resolveFetch_ok (i : Nat) (raw : List RawHospital)
    (s : ScreenState) (req : FetchReq)
    (hreq : findReq i s.pending = some req)
    (hab : s.aborted.contains i = false) :
    resolveFetch i (.ok raw) s =
      { s with
          pending := s.pending.filter (fun q => !(q.id == i))
          cache := cacheSet s.cache req.region (normalizeHospitals raw)
          hospitals := normalizeHospitals raw
          loading := false
          ctrl := none } := by
  have h' : ¬ i ∈ s.aborted := by simpa using hab
  unfold resolveFetch
  rw [hreq]
  simp [h']

theorem resolveFetch_err (i : Nat) (msg : String) (s : ScreenState)
    (req : FetchReq) (hreq : findReq i s.pending = some req)
    (hab : s.aborted.contains i = false) :
    resolveFetch i (.err msg) s =
      { s with
          pending := s.pending.filter (fun q => !(q.id == i))
          error := some msg
          hospitals := []
          loading := false
          ctrl := none } := by
  have h' : ¬ i ∈ s.aborted := by simpa using hab
  unfold resolveFetch
  rw [hreq]
  simp [h']

theorem cacheLookup_cacheSet_self (c : List (String × List Hospital))
    (k : String) (v : List Hospital) :
    cacheLookup (cacheSet c k v) k = some v := by
  induction c with
  | nil => simp [cacheSet, cacheLookup]
  | cons e tl ih =>
    by_cases h : e.1 == k
    · simp [cacheSet, cacheLookup, h]
    · simp [cacheSet, cacheLookup, h, ih]

theorem cacheLookup_cacheSet_isSome (c : List (String × List Hospital))
    (k k' : String) (v : List Hospital)
    (h : (cacheLookup c k).isSome = true) :
    (cacheLookup (cacheSet c k' v) k).isSome = true := by
  induction c with
  | nil => simp [cacheLookup] at h
  | cons e tl ih =>
    cases he : (e.1 == k') with
    | true =>
      cases hk : (k' == k) with
      | true => simp [cacheSet, cacheLookup, he, hk]
      | false =>
        have hek : (e.1 == k) = false := by
          have h1 : e.1 = k' := by simpa using he
          rw [h1]
          exact hk
        simp [cacheLookup, hek] at h
        simp [cacheSet, cacheLookup, he, hk]
        exact h
    | false =>
      cases hek : (e.1 == k) with
      | true => simp [cacheSet, cacheLookup, he, hek]
      | false =>
        simp [cacheLookup, hek] at h
        simp [cacheSet, cacheLookup, he, hek]
        exact ih h

theorem payloadLookup_append (k : String) (p q : Payload) :
    payloadLookup k (p ++ q) =
      (payloadLookup k p).or (payloadLookup k q) := by
  induction p with
  | nil => simp [payloadLookup]
  | cons e tl ih =>
    by_cases he : e.1 == k
    · simp [payloadLookup, he]
    · simp [payloadLookup, he, ih]

theorem payloadLookup_imageAppend (k name : String) (v : JsVal)
    (h : (name == k) = false) :
    payloadLookup k (imageAppend name v) = none := by
  cases v with
  | fileObj uri fn ft =>
    by_cases hu : uri == ""
    · simp [imageAppend, payloadLookup, hu]
    · simp [imageAppend, payloadLookup, hu, h]
  | undef => rfl
  | null => rfl
  | str s => rfl
  | num n => rfl
  | arr l => rfl
  | obj a b => rfl

theorem form1Payload_status (uid : Option String) (s : Form1State) :
    payloadLookup "status" (form1Payload uid s) = none := by
  rw [form1Payload, payloadLookup_append,
    payloadLookup_imageAppend _ _ _ (by decide)]
  rfl

theorem form2Payload_status (isDraft : Bool) (uid : Option String)
    (st : Form2State) :
    payloadLookup "status" (form2Payload isDraft uid st) =
      some (.str (if isDraft then "draft" else "submitted")) := by
  rw [form2Payload, List.append_assoc, payloadLookup_append,
    payloadLookup_append,
    payloadLookup_imageAppend _ _ _ (by decide)]
  rfl

/-! ## Claim C1 -/

/-- C1, counterexample.  The claim states that after any sequence of
`selectRegion` calls only the most recent selection can mutate the
visible location list.  This fails: select `"B"` (fetch 0 resolves and is
cached), select `"A"` (fetch 1 starts), select `"B"` again (cache hit,
which returns early WITHOUT aborting fetch 1), then fetch 1 resolves —
and, with no identity check in the code, overwrites the visible list with
the stale result for `"A"` although `"B"` is the most recent selection. -/
theorem c1_counterexample :
    (runEvents [.select "B", .settle 0 (.ok rawHospB), .select "A",
        .select "B", .settle 1 (.ok rawHospA)] initState).region = "B" ∧
    (runEvents [.select "B", .settle 0 (.ok rawHospB), .select "A",
        .select "B", .settle 1 (.ok rawHospA)] initState).hospitals =
      normalizeHospitals rawHospA ∧
    cacheLookup (runEvents [.select "B", .settle 0 (.ok rawHospB),
        .select "A", .select "B", .settle 1 (.ok rawHospA)]
        initState).cache "B" = some (normalizeHospitals rawHospB) ∧
    normalizeHospitals rawHospA ≠ normalizeHospitals rawHospB := by
  decide

/-- C1, amended.  When the superseding `selectRegion` goes through the
network path (cache miss), the in-flight fetch is aborted, and the
settlement of an aborted fetch — whatever its outcome — mutates neither
the visible hospital list, nor the cache, nor the error state: the stale
result is discarded. -/
theorem c1_claim (s : ScreenState) (r : String) (i : Nat)
    (out : FetchOutcome) (hmiss : cacheLookup s.cache r = none)
    (hctrl : s.ctrl = some i) :
    (selectRegion r s).aborted.contains i = true ∧
    (resolveFetch i out (selectRegion r s)).hospitals =
      (selectRegion r s).hospitals ∧
    (resolveFetch i out (selectRegion r s)).cache =
      (selectRegion r s).cache ∧
    (resolveFetch i out (selectRegion r s)).error =
      (selectRegion r s).error := by
  have hab : (selectRegion r s).aborted.contains i = true := by
    rw [selectRegion_miss r s hmiss]
    simp [hctrl]
  refine ⟨hab, ?_⟩
  exact resolveFetch_aborted i out (selectRegion r s) hab

/-- C1, witness for the amended theorem: one fetch in flight for region
`"A"` (controller id 0), then region `"B"` is selected while `"B"` is not
cached. -/
theorem c1_witness :
    (selectRegion "B" inFlightA).aborted.contains 0 = true ∧
    (resolveFetch 0 (.ok rawHospA) (selectRegion "B" inFlightA)).hospitals =
      (selectRegion "B" inFlightA).hospitals ∧
    (resolveFetch 0 (.ok rawHospA) (selectRegion "B" inFlightA)).cache =
      (selectRegion "B" inFlightA).cache ∧
    (resolveFetch 0 (.ok rawHospA) (selectRegion "B" inFlightA)).error =
      (selectRegion "B" inFlightA).error :=
  c1_claim inFlightA "B" 0 (.ok rawHospA) (by decide) (by decide)

/-! ## Claim C2 -/

/-- C2, counterexample.  The claim states that a raw record failing to
coerce to a usable numeric id is dropped and the resolved length counts
only coercible records.  The normalization is a plain `map` with no
filter: a payload whose only record has id `"abc"` (NaN after coercion)
resolves to a one-element list whose record carries a NaN id, although
its coercible count is 0. -/
theorem c2_counterexample :
    normalizeHospitals rawBadId =
      [⟨.nan, "X", "rs delta", "", none, none⟩] ∧
    (normalizeHospitals rawBadId).length = 1 ∧
    coercibleCount rawBadId = 0 ∧
    (normalizeHospitals rawBadId).length ≠ coercibleCount rawBadId := by
  decide

/-- C2, amended.  Normalization drops nothing: every raw record is
retained (a non-coercible id merely becomes NaN), so the resolved list
always has exactly the length of the raw payload. -/
theorem c2_claim (raw : List RawHospital) :
    (normalizeHospitals raw).length = raw.length := by
  simp [normalizeHospitals]

/-! ## Claim C3 -/

/-- C3, counterexample.  The claim states the checked options are joined
in their declared list order.  The toggle handler appends each newly
checked option at the end of `selected`, so the join is in click order:
with declared options `["x", "y"]`, checking `"y"` first and `"x"` second
yields `"y,x,custom"`, not the declared-order `"x,y,custom"`. -/
theorem c3_counterexample :
    handleToggle "x" (handleToggle "y" []) = ["y", "x"] ∧
    tujuanKunjunganString ["y", "x"] " Custom " = "y,x,custom" ∧
    specDeclaredOrderJoin ["x", "y"] ["y", "x"] " Custom " = "x,y,custom" ∧
    tujuanKunjunganString ["y", "x"] " Custom " ≠
      specDeclaredOrderJoin ["x", "y"] ["y", "x"] " Custom " := by
  decide

/-- C3, amended.  The submitted value is the comma-join of the machine
values of the checked options in the order they were checked (the
insertion order of `selected`), followed — when the other-text is
non-blank after trimming — by exactly one final entry equal to the
lower-cased trimmed other-text. -/
theorem c3_claim (selected : List String) (other : String)
    (h : jsTrim other ≠ "") :
    tujuanKunjunganString selected other =
      String.intercalate "," (selected ++ [jsToLower (jsTrim other)]) := by
  have hb : (jsTrim other == "") = false := beq_eq_false_iff_ne.mpr h
  have hmap : List.map (selItemValue ∘ SelItem.str) selected = selected := by
    induction selected with
    | nil => rfl
    | cons a tl ih => simp [selItemValue, ih]
  simp [tujuanKunjunganString, hb, selItemValue, hmap]

/-- C3, witness: with checked options `["x", "y"]` (machine values equal
to themselves) and other-text `" Custom "`, the computed string is
`"x,y,custom"` — the claim instance, which holds because the checked
order coincides with the declared order here. -/
theorem c3_witness :
    jsTrim " Custom " ≠ "" ∧
    tujuanKunjunganString ["x", "y"] " Custom " = "x,y,custom" :=
  ⟨by decide, by rw [c3_claim ["x", "y"] " Custom " (by decide)]; decide⟩

/-! ## Claim C8 -/

/-- C8, counterexample.  The claim states that two successive
`selectRegion(r)` calls with no intervening different-region call issue
exactly one network fetch.  When the second call arrives while the first
fetch is still in flight, the cache is still empty for `r`, so the second
call aborts the first fetch (controller 0) and issues a second one: two
fetches are issued, not one. -/
theorem c8_counterexample :
    (runEvents [.select "A", .select "A"] initState).nextId = 2 ∧
    (runEvents [.select "A", .select "A"] initState).nextId ≠ 1 ∧
    (runEvents [.select "A", .select "A"] initState).aborted = [0] := by
  decide

/-- C8, amended.  When the fetch of the first `selectRegion(r)` call has
settled successfully before the second call, the second call is answered
synchronously from the per-region cache: the first call issues exactly one
fetch, the settlement stores the normalized result under `r`, and the
second call issues no fetch (the fetch counter and the pending set are
unchanged) while showing exactly the fetched list. -/
theorem c8_claim (s : ScreenState) (r : String) (raw : List RawHospital)
    (hmiss : cacheLookup s.cache r = none) (hctrl : s.ctrl = none)
    (hpend : s.pending = [])
    (hab : s.aborted.contains s.nextId = false) :
    (resolveFetch s.nextId (.ok raw) (selectRegion r s)).nextId =
      s.nextId + 1 ∧
    cacheLookup (resolveFetch s.nextId (.ok raw) (selectRegion r s)).cache
      r = some (normalizeHospitals raw) ∧
    (selectRegion r (resolveFetch s.nextId (.ok raw)
      (selectRegion r s))).nextId = s.nextId + 1 ∧
    (selectRegion r (resolveFetch s.nextId (.ok raw)
      (selectRegion r s))).pending =
      (resolveFetch s.nextId (.ok raw) (selectRegion r s)).pending ∧
    (selectRegion r (resolveFetch s.nextId (.ok raw)
      (selectRegion r s))).hospitals = normalizeHospitals raw := by
  have hsel := selectRegion_miss r s hmiss
  have hreq : findReq s.nextId (selectRegion r s).pending =
      some ⟨s.nextId, r⟩ := by
    rw [hsel]
    simp [findReq, hpend]
  have hab1 : (selectRegion r s).aborted.contains s.nextId = false := by
    rw [hsel]
    simpa [hctrl] using hab
  rw [resolveFetch_ok s.nextId raw (selectRegion r s) ⟨s.nextId, r⟩ hreq
    hab1]
  have hcache : cacheLookup
      (cacheSet (selectRegion r s).cache r (normalizeHospitals raw)) r =
      some (normalizeHospitals raw) := cacheLookup_cacheSet_self _ _ _
  refine ⟨by simp [hsel], by simpa using hcache, ?_, ?_, ?_⟩
  all_goals rw [selectRegion_hit _ _ _ (by simpa using hcache)]
  all_goals simp [hsel]

/-- C8, witness for the amended theorem: the empty initial state and
region `"A"`. -/
theorem c8_witness :
    (resolveFetch initState.nextId (.ok rawHospA)
      (selectRegion "A" initState)).nextId = initState.nextId + 1 ∧
    cacheLookup (resolveFetch initState.nextId (.ok rawHospA)
      (selectRegion "A" initState)).cache "A" =
      some (normalizeHospitals rawHospA) ∧
    (selectRegion "A" (resolveFetch initState.nextId (.ok rawHospA)
      (selectRegion "A" initState))).nextId = initState.nextId + 1 ∧
    (selectRegion "A" (resolveFetch initState.nextId (.ok rawHospA)
      (selectRegion "A" initState))).pending =
      (resolveFetch initState.nextId (.ok rawHospA)
        (selectRegion "A" initState)).pending ∧
    (selectRegion "A" (resolveFetch initState.nextId (.ok rawHospA)
      (selectRegion "A" initState))).hospitals =
      normalizeHospitals rawHospA :=
  c8_claim initState "A" rawHospA (by decide) (by decide) (by decide)
    (by decide)

/-! ## Claim C9 -/

/-- C9.  When a non-aborted in-flight fetch for region `r` fails, the
catch-handler stores the error message and clears the visible list; the
cache is left untouched (in particular still unpopulated for `r`), no new
fetch is issued by the settlement itself (no automatic retry), and a
subsequent `selectRegion(r)` misses the cache and re-attempts a network
fetch. -/
theorem c9_claim (s : ScreenState) (i : Nat) (r msg : String)
    (hreq : findReq i s.pending = some ⟨i, r⟩)
    (hab : s.aborted.contains i = false)
    (hmiss : cacheLookup s.cache r = none) :
    (resolveFetch i (.err msg) s).error = some msg ∧
    (resolveFetch i (.err msg) s).hospitals = [] ∧
    (resolveFetch i (.err msg) s).cache = s.cache ∧
    (resolveFetch i (.err msg) s).pending =
      s.pending.filter (fun q => !(q.id == i)) ∧
    (resolveFetch i (.err msg) s).nextId = s.nextId ∧
    (selectRegion r (resolveFetch i (.err msg) s)).pending =
      (resolveFetch i (.err msg) s).pending ++ [⟨s.nextId, r⟩] ∧
    (selectRegion r (resolveFetch i (.err msg) s)).nextId =
      s.nextId + 1 := by
  rw [resolveFetch_err i msg s ⟨i, r⟩ hreq hab]
  refine ⟨rfl, rfl, rfl, rfl, rfl, ?_, ?_⟩ <;>
    rw [selectRegion_miss _ _ (by simpa using hmiss)]

/-- C9, witness: the single in-flight fetch for region `"A"` fails with
the message of the catch-handler fallback. -/
theorem c9_witness :
    (resolveFetch 0 (.err "Failed to load hospitals") inFlightA).error =
      some "Failed to load hospitals" ∧
    (resolveFetch 0 (.err "Failed to load hospitals")
      inFlightA).hospitals = [] ∧
    (resolveFetch 0 (.err "Failed to load hospitals") inFlightA).cache =
      inFlightA.cache ∧
    (resolveFetch 0 (.err "Failed to load hospitals") inFlightA).pending =
      inFlightA.pending.filter (fun q => !(q.id == 0)) ∧
    (resolveFetch 0 (.err "Failed to load hospitals") inFlightA).nextId =
      inFlightA.nextId ∧
    (selectRegion "A" (resolveFetch 0 (.err "Failed to load hospitals")
      inFlightA)).pending =
      (resolveFetch 0 (.err "Failed to load hospitals")
        inFlightA).pending ++ [⟨inFlightA.nextId, "A"⟩] ∧
    (selectRegion "A" (resolveFetch 0 (.err "Failed to load hospitals")
      inFlightA)).nextId = inFlightA.nextId + 1 :=
  c9_claim inFlightA 0 "A" "Failed to load hospitals" (by decide)
    (by decide) (by decide)

/-! ## Claim C10 -/

/-- C10, counterexample.  The claim states a cached entry is never
overwritten.  But the finally-block of an aborted fetch unconditionally
clears the shared controller ref, so a later cache-miss selection finds no
controller to abort, leaving TWO live fetches for the same region; both
settle and the second `Map.set` overwrites the entry the first one
stored: select `"A"` (fetch 0), select `"B"` (aborts 0, fetch 1), fetch 0
settles canceled (clearing the controller ref), select `"B"` again (miss,
nothing to abort, fetch 2), then fetches 1 and 2 both settle for key
`"B"`. -/
theorem c10_counterexample :
    cacheLookup (runEvents [.select "A", .select "B",
        .settle 0 (.err "canceled"), .select "B",
        .settle 1 (.ok rawHospB)] initState).cache "B" =
      some (normalizeHospitals rawHospB) ∧
    cacheLookup (runEvents [.select "A", .select "B",
        .settle 0 (.err "canceled"), .select "B",
        .settle 1 (.ok rawHospB), .settle 2 (.ok rawHospB2)]
        initState).cache "B" = some (normalizeHospitals rawHospB2) ∧
    normalizeHospitals rawHospB ≠ normalizeHospitals rawHospB2 := by
  decide

/-- C10, amended.  A cached key is never evicted: whatever event happens
next, the key stays present (though a concurrent same-key fetch may
overwrite its value), and selecting a cached key yields exactly the list
currently stored, with no network call. -/
theorem c10_claim (s : ScreenState) (e : Event) (k : String)
    (v : List Hospital) (h : cacheLookup s.cache k = some v) :
    (cacheLookup (stepEvent e s).cache k).isSome = true ∧
    (selectRegion k s).hospitals = v := by
  constructor
  · cases e with
    | select r =>
      show (cacheLookup (selectRegion r s).cache k).isSome = true
      rw [selectRegion_cache]
      simp [h]
    | settle i out =>
      show (cacheLookup (resolveFetch i out s).cache k).isSome = true
      unfold resolveFetch
      cases hf : findReq i s.pending with
      | none => simp [h]
      | some req =>
        by_cases hcon : i ∈ s.aborted
        · simp [hcon, h]
        · cases out with
          | ok raw =>
            simp [hcon]
            exact cacheLookup_cacheSet_isSome _ _ _ _ (by simp [h])
          | err msg => simp [hcon, h]
  · rw [selectRegion_hit k s v h]

/-- C10, witness: region `"B"` is cached; the next event selects a
different region `"A"`. -/
theorem c10_witness :
    (cacheLookup (stepEvent (.select "A") cachedB).cache "B").isSome =
      true ∧
    (selectRegion "B" cachedB).hospitals = normalizeHospitals rawHospB :=
  c10_claim cachedB (.select "A") "B" (normalizeHospitals rawHospB)
    (by decide)

/-! ## Claim C4 -/

/-- C4.  Every pending image attachment of the record is uploaded through
the external upload collaborator before the submit collaborator is
reached, and a failure of any single upload aborts the whole save: with
two pending attachments whose second upload call rejects, `handleSave`
ends in the save-failed alert and the external submit collaborator
(`safeOnSave`) is never invoked. -/
theorem c4_claim (upload : String → Except String String)
    (obj : CardObj) (k1 k2 f1 msg : String)
    (hkeys : pendingImageKeys obj = [k1, k2])
    (h1 : upload k1 = .ok f1) (h2 : upload k2 = .error msg)
    (hval : techValidationFails obj = false) :
    handleSave upload (some obj) = .saveFailed msg ∧
    submitInvoked (handleSave upload (some obj)) = false := by
  have hfe : firstUploadError upload obj = some msg := by
    simp [firstUploadError, hkeys, h1, h2]
  have hup : uploadNewImages upload obj = .error msg := by
    simp [uploadNewImages, hkeys, hfe]
  have hsave : handleSave upload (some obj) = .saveFailed msg := by
    simp [handleSave, hval, hup]
  exact ⟨hsave, by rw [hsave]; rfl⟩

/-- C4, witness: the concrete record with two pending attachments whose
second upload (for `foto_alat`) rejects. -/
theorem c4_witness :
    handleSave uploadEx (some cardObjEx) =
      .saveFailed "Upload failed: foto_alat" ∧
    submitInvoked (handleSave uploadEx (some cardObjEx)) = false :=
  c4_claim uploadEx cardObjEx "dokumentasi_kunjungan" "foto_alat"
    "srv_a.jpg" "Upload failed: foto_alat" (by decide) rfl rfl
    (by decide)

/-! ## Claim C5 -/

/-- C5.  In `Form1Screen.js` a final submit with missing required fields
raises one alert listing every missing label (and does not post); but in
`Form2Screen.js` the same validation block reads `const`s before their
declaration (and identifiers that do not exist at all), so every final
submit throws a `ReferenceError` and ends in the generic failure alert —
the aggregated per-field message is unreachable there. -/
theorem c5_claim :
    (∀ (uid : Option String) (s : Form1State),
      (form1RequiredFields s).filter (fun f => isMissingVal f.1) ≠ [] →
      form1Submit false uid s = .submitValidationError
        (requiredFieldsMessage
          (((form1RequiredFields s).filter
            (fun f => isMissingVal f.1)).map (fun f => f.2)))) ∧
    (∀ (uid : Option String) (st : Form2State),
      form2Submit false uid st = .failedWithError
        "Failed to submit form. Please try again."
        "ReferenceError: cannot access nameToSend before initialization")
    := by
  constructor
  · intro uid s h
    have hb : ((form1RequiredFields s).filter
        (fun f => isMissingVal f.1)).isEmpty = false := by
      simpa [List.isEmpty_iff] using h
    simp [form1Submit, hb]
  · intro uid st
    rfl

/-- C5, witness: a `Form1State` missing exactly the location, address and
coordinates (three labels in one message), and any `Form2State`. -/
theorem c5_witness :
    ((form1RequiredFields form1Ex).filter
        (fun f => isMissingVal f.1)).map (fun f => f.2) =
      ["Lokasi", "Alamat", "Koordinat"] ∧
    form1Submit false (some "7") form1Ex = .submitValidationError
      (requiredFieldsMessage
        (((form1RequiredFields form1Ex).filter
          (fun f => isMissingVal f.1)).map (fun f => f.2))) ∧
    form2Submit false (some "7") form2Full = .failedWithError
      "Failed to submit form. Please try again."
      "ReferenceError: cannot access nameToSend before initialization" :=
  ⟨by decide, c5_claim.1 (some "7") form1Ex (by decide),
    c5_claim.2 (some "7") form2Full⟩

/-! ## Claim C6 -/

/-- C6.  In `Form1Screen.js` a draft save with the anchor field (sales
name) empty stops at the validation alert and never posts; but in
`Form4Screen.js` the draft check for the kuantitas field only alerts
without returning (and its condition also misparenthesizes the draft
flag), so the draft is posted anyway: the alert appears AND the payload
is handed to the submit collaborator. -/
theorem c6_claim :
    (∀ (uid : Option String) (s : Form1State),
      jsFalsy (jsValueCoalesce s.namaSales) = true →
      form1Submit true uid s =
        .draftValidationError "Nama Sales is required to save a draft") ∧
    (∀ (uid : Option String) (s4 : Form4State),
      s4.kuantitas = JsVal.null →
      (form4Submit true uid s4).1 = ["Mohon isi kuantitas unit."] ∧
      (form4Submit true uid s4).2 = .posted (form4Payload uid s4)) := by
  constructor
  · intro uid s h
    simp [form1Submit, h]
  · intro uid s4 h
    constructor
    · simp [form4Submit, h]
    · simp [form4Submit, h]

/-- C6, witness: a `Form1State` with an empty sales name (draft refused,
no post), and the `Form4State` with a null kuantitas (alert shown, draft
posted regardless). -/
theorem c6_witness :
    jsFalsy (jsValueCoalesce (JsVal.str "")) = true ∧
    form1Submit true (some "7")
        { form1Ex with namaSales := JsVal.str "" } =
      .draftValidationError "Nama Sales is required to save a draft" ∧
    form4Ex.kuantitas = JsVal.null ∧
    ((form4Submit true (some "7") form4Ex).1 =
        ["Mohon isi kuantitas unit."] ∧
      (form4Submit true (some "7") form4Ex).2 =
        .posted (form4Payload (some "7") form4Ex)) :=
  ⟨by decide,
    c6_claim.1 (some "7") { form1Ex with namaSales := JsVal.str "" }
      (by decide),
    by decide,
    c6_claim.2 (some "7") form4Ex (by decide)⟩

/-! ## Claim C7 -/

/-- C7.  Whatever `submitForm` of `Form1Screen.js` posts carries NO
`status` field at POST time — the draft/submitted append happens only
after the response has arrived; by contrast the draft path of
`Form2Screen.js` does append `status = draft` to the payload before its
POST, showing the intended design. -/
theorem c7_claim :
    (∀ (isDraft : Bool) (uid : Option String) (s : Form1State)
      (p : Payload), form1Submit isDraft uid s = .posted p →
      payloadLookup "status" p = none) ∧
    (∀ (uid : Option String) (st : Form2State),
      jsFalsy st.namaSales = false →
      form2Submit true uid st = .posted (form2Payload true uid st) ∧
      payloadLookup "status" (form2Payload true uid st) =
        some (.str "draft")) := by
  constructor
  · intro isDraft uid s p h
    unfold form1Submit at h
    dsimp only at h
    split at h
    · simp at h
    · split at h
      · simp at h
      · rw [Form1Outcome.posted.injEq] at h
        rw [← h]
        exact form1Payload_status uid s
  · intro uid st hn
    constructor
    · simp [form2Submit, hn]
    · simpa using form2Payload_status true uid st

/-- C7, witness: the fully-filled `Form1State` whose final submit posts a
payload without `status`, and the fully-filled `Form2State` whose draft
save posts with `status = draft`. -/
theorem c7_witness :
    payloadLookup "status" (form1Payload (some "7") form1Full) = none ∧
    (form2Submit true (some "7") form2Full =
        .posted (form2Payload true (some "7") form2Full) ∧
      payloadLookup "status" (form2Payload true (some "7") form2Full) =
        some (.str "draft")) :=
  ⟨c7_claim.1 false (some "7") form1Full
      (form1Payload (some "7") form1Full) (by decide),
    c7_claim.2 (some "7") form2Full (by decide)⟩

end Tarafis
